import Mathlib

/-!
Verification development for the mysql-top-throughput-analyzer repository.

The definitions below are a shallow embedding of the Go source:

- db_mysql.go        : digestStat, snapshot (a map from digest key to stats)
- unnamed/part_001   : deltaSnap, the snapshot differ
- monitor.go         : offender, the per-delta byte estimation and alert
                       decision inside monitor.Run, and the tick loop
- stream.go          : logRing (Append, GetFrom, Head), sseBroadcaster
                       (Subscribe, unsubscribe, Broadcast)

Go uint64 values are modelled as Nat; the only arithmetic that can wrap in
the source is the multiplication producing the byte estimates, modelled
with an explicit reduction modulo 2 ^ 64.  Subtractions in deltaSnap are
guarded in the source exactly as Nat truncated subtraction behaves, so no
modulus is needed there.  Go maps are modelled as functions into Option.
-/

namespace Mon

/-- Go sql.NullString: a string together with a validity flag. -/
structure NullString where
  valid : Bool
  str : String
deriving Repr, DecidableEq

/-- Go zero value of sql.NullString. -/
def NullString.zero : NullString := { valid := false, str := "" }

/-- db_mysql.go: snapKey is a string (the digest). -/
def snapKey := String

instance : DecidableEq snapKey := inferInstanceAs (DecidableEq String)

/-- db_mysql.go lines 26-34: one row of the digest summary table. -/
structure digestStat where
  Digest : String
  DigestText : String
  QuerySample : NullString
  CountStar : Nat
  SumRowsExam : Nat
  SumRowsSent : Nat
  SumRowsAff : Nat
deriving Repr, DecidableEq

/-- db_mysql.go line 36: a snapshot maps digest keys to stats (Go map). -/
def snapshot := snapKey → Option digestStat

/-- unnamed/part_001 lines 41-80: the snapshot differ.  For each key of the
new snapshot: if the key is also in the old snapshot, each counter delta is
the guarded difference (zero when the counter decreased); the key is skipped
when all three deltas are zero.  A key absent from the old snapshot keeps
its entire current counters.  The Go composite literal leaves QuerySample
and SumRowsAff at their zero values. -/
def deltaSnap (oldSnap newSnap : snapshot) : snapshot := fun k =>
  match newSnap k with
  | none => none
  | some newv =>
    match oldSnap k with
    | some oldv =>
      let dCount := if oldv.CountStar ≤ newv.CountStar then newv.CountStar - oldv.CountStar else 0
      let dRowsExam :=
        if oldv.SumRowsExam ≤ newv.SumRowsExam then newv.SumRowsExam - oldv.SumRowsExam else 0
      let dRowsSent :=
        if oldv.SumRowsSent ≤ newv.SumRowsSent then newv.SumRowsSent - oldv.SumRowsSent else 0
      if dCount = 0 ∧ dRowsExam = 0 ∧ dRowsSent = 0 then none
      else some { Digest := newv.Digest, DigestText := newv.DigestText
                , QuerySample := NullString.zero
                , CountStar := dCount, SumRowsExam := dRowsExam, SumRowsSent := dRowsSent
                , SumRowsAff := 0 }
    | none =>
      some { Digest := newv.Digest, DigestText := newv.DigestText
           , QuerySample := NullString.zero
           , CountStar := newv.CountStar, SumRowsExam := newv.SumRowsExam
           , SumRowsSent := newv.SumRowsSent, SumRowsAff := 0 }

/-- config.go accessors used by monitor.Run (all uint64 in the source). -/
structure Config where
  ReadThreshold : Nat
  WriteThreshold : Nat
  AvgRowRead : Nat
  AvgRowSent : Nat
deriving Repr, DecidableEq

/-- Go uint64 multiplication: the product reduced modulo 2 ^ 64. -/
def u64mul (a b : Nat) : Nat := a * b % 2 ^ 64

/-- monitor.go lines 16-24: a per-interval delta with estimated bytes. -/
structure offender where
  Digest : String
  Text : String
  BytesRead : Nat
  BytesWrite : Nat
  RowsExamined : Nat
  RowsSent : Nat
  Count : Nat
deriving Repr, DecidableEq

/-- monitor.go lines 88-101: the offender built from one delta entry.  The
display text prefers the query sample when it is valid and non-empty, else
the normalized digest text. -/
def mkOffender (cfg : Config) (d : digestStat) : offender :=
  let br := u64mul d.SumRowsExam cfg.AvgRowRead
  let bw := u64mul d.SumRowsSent cfg.AvgRowSent
  let text := if d.QuerySample.valid = true ∧ d.QuerySample.str ≠ "" then d.QuerySample.str
              else d.DigestText
  { Digest := d.Digest, Text := text, BytesRead := br, BytesWrite := bw
  , RowsExamined := d.SumRowsExam, RowsSent := d.SumRowsSent, Count := d.CountStar }

/-- monitor.go lines 82-105, body of the per-delta loop: skip the entry
when both byte estimates are zero (the continue on line 85), otherwise
build the offender and call Alert exactly when the read estimate meets the
read threshold or the write estimate meets the write threshold.  The result
is some offender exactly when Alert is called for this delta entry. -/
def alertFor (cfg : Config) (d : digestStat) : Option offender :=
  let br := u64mul d.SumRowsExam cfg.AvgRowRead
  let bw := u64mul d.SumRowsSent cfg.AvgRowSent
  if br = 0 ∧ bw = 0 then none
  else if cfg.ReadThreshold ≤ br ∨ cfg.WriteThreshold ≤ bw then some (mkOffender cfg d)
  else none

/-- monitor.go lines 81-105: the alerts of one tick, per key.  The Go loop
ranges over the delta map and handles each entry independently, so the
alert issued for a key is a function of that key alone. -/
def tickAlerts (cfg : Config) (prev curr : snapshot) : snapKey → Option offender :=
  fun k => (deltaSnap prev curr k).bind (alertFor cfg)

/-- Result of one call to db.Snapshot inside the loop: a snapshot or an
error (monitor.go line 74). -/
inductive FetchResult where
  | ok (s : snapshot)
  | fail

/-- monitor.go lines 72-108, one tick of the loop: on a fetch error the
loop logs and continues, leaving the previous snapshot unchanged and
issuing no alerts; on success it computes the deltas against the previous
snapshot, issues the alerts, and replaces the previous snapshot with the
current one (line 107). -/
def runTick (cfg : Config) (prev : snapshot) (f : FetchResult) :
    snapshot × (snapKey → Option offender) :=
  match f with
  | .fail => (prev, fun _ => none)
  | .ok curr => (curr, tickAlerts cfg prev curr)

/-- monitor.go lines 64-110: the steady-state loop over a trace of fetch
results, threading the previous snapshot and recording the alerts of each
tick. -/
def runLoop (cfg : Config) (prev : snapshot) :
    List FetchResult → snapshot × List (snapKey → Option offender)
  | [] => (prev, [])
  | f :: rest =>
    let t := runTick cfg prev f
    let r := runLoop cfg t.1 rest
    (r.1, t.2 :: r.2)

/-- stream.go lines 22-28: the bounded ring buffer of log lines.  base is
the sequence number of the first retained line, next the sequence number of
the next line to be appended. -/
structure logRing where
  cap : Nat
  data : List String
  base : Nat
  next : Nat
deriving Repr, DecidableEq

/-- stream.go line 30: a fresh empty ring of the given capacity. -/
def newLogRing (capacity : Nat) : logRing :=
  { cap := capacity, data := [], base := 0, next := 0 }

/-- stream.go lines 32-42: append a line.  When the buffer is at capacity
the oldest line is dropped and base advances by one; the line is then
appended and next advances by one.  There is no failure path. -/
def logRing.Append (r : logRing) (s : String) : logRing :=
  let r1 := if r.data.length = r.cap then { r with data := r.data.drop 1, base := r.base + 1 }
            else r
  { r1 with data := r1.data ++ [s], next := r1.next + 1 }

/-- stream.go lines 46-61: return all retained lines with sequence at
least seq, together with the new cursor (next).  seq is clamped up to base
when too old; a seq beyond next yields no lines. -/
def logRing.GetFrom (r : logRing) (seq : Nat) : List String × Nat :=
  let seq1 := if seq < r.base then r.base else seq
  if r.next < seq1 then ([], r.next)
  else
    let startIdx := seq1 - r.base
    let startIdx1 := if r.data.length < startIdx then r.data.length else startIdx
    (r.data.drop startIdx1, r.next)

/-- stream.go line 64: the current next sequence marker. -/
def logRing.Head (r : logRing) : Nat := r.next

/-- Well-formedness of a ring state: the retained lines number exactly
next - base, and that count never exceeds the capacity.  The program only
ever constructs rings through newLogRing with a positive capacity
(stream.go line 66 uses 2048), and Go slicing of an empty zero-capacity
slice would fault, so a positive capacity is part of well-formedness. -/
def logRing.Inv (r : logRing) : Prop :=
  r.base ≤ r.next ∧ r.data.length = r.next - r.base ∧ r.next - r.base ≤ r.cap ∧ 0 < r.cap

instance (r : logRing) : Decidable r.Inv :=
  inferInstanceAs (Decidable (_ ∧ _ ∧ _ ∧ _))

/-- State of one subscriber channel: its buffered queue and whether it has
been closed.  Go channels created by Subscribe have buffer capacity 256
(stream.go line 100). -/
structure chanState where
  queue : List String
  closed : Bool
deriving Repr, DecidableEq

/-- stream.go line 100: the per-subscriber channel buffer capacity. -/
def subCap : Nat := 256

/-- stream.go lines 87-90: the broadcaster.  chans models the channel
objects that exist (by identifier); subs models the keys of the registry
map b.subs.  nextId supplies fresh channel identifiers. -/
structure sseBroadcaster where
  nextId : Nat
  chans : List (Nat × chanState)
  subs : List Nat
deriving Repr, DecidableEq

/-- Look up a channel object by identifier. -/
def lookupChan (b : sseBroadcaster) (ch : Nat) : Option chanState :=
  (b.chans.find? (fun p => p.1 = ch)).map Prod.snd

/-- stream.go lines 99-103: Subscribe creates a fresh open channel with an
empty queue and registers it.  Returns the new state and the channel
identifier the unsubscribe closure captures. -/
def Subscribe (b : sseBroadcaster) : sseBroadcaster × Nat :=
  ({ nextId := b.nextId + 1
   , chans := (b.nextId, { queue := [], closed := false }) :: b.chans
   , subs := b.nextId :: b.subs }, b.nextId)

/-- Go close(ch): marks the channel closed; closing an already closed (or
missing) channel is a runtime panic, modelled as none. -/
def closeChan (b : sseBroadcaster) (ch : Nat) : Option sseBroadcaster :=
  match b.chans.find? (fun p => p.1 = ch) with
  | none => none
  | some p =>
    if p.2.closed then none
    else some { b with chans := b.chans.map (fun q => if q.1 = ch then (q.1, { q.2 with closed := true }) else q) }

/-- stream.go lines 104-111, the closure returned by Subscribe: under the
mutex, when the channel is still registered it is removed from the
registry and closed; otherwise nothing happens.  none would model a panic
from a double close. -/
def unsubscribe (b : sseBroadcaster) (ch : Nat) : Option sseBroadcaster :=
  if ch ∈ b.subs then closeChan { b with subs := b.subs.erase ch } ch
  else some b

/-- Iterated unsubscribe through the Option monad, to speak about calling
the closure any number of further times. -/
def unsubN : Nat → sseBroadcaster → Nat → Option sseBroadcaster
  | 0, b, _ => some b
  | n + 1, b, ch => (unsubscribe b ch).bind (fun b1 => unsubN n b1 ch)

/-- The non-blocking send of stream.go lines 118-122: the message is
appended when the channel buffer has room, and dropped otherwise. -/
def enqueueAttempt (st : chanState) (msg : String) : chanState :=
  if st.queue.length < subCap then { st with queue := st.queue ++ [msg] } else st

/-- stream.go lines 115-125: Broadcast attempts a non-blocking enqueue to
every registered subscriber channel; unregistered channels are untouched.
The Go function has no error return at all, matching the total type. -/
def Broadcast (b : sseBroadcaster) (msg : String) : sseBroadcaster :=
  { b with chans := b.chans.map (fun p => if p.1 ∈ b.subs then (p.1, enqueueAttempt p.2 msg) else p) }

/-- Registry well-formedness maintained by the broadcaster under its
mutex: registered identifiers are distinct (Go map keys), and every
registered identifier names an existing open channel (unsubscribe removes
a channel from the registry in the same critical section that closes it). -/
def bwf (b : sseBroadcaster) : Prop :=
  b.subs.Nodup ∧ ∀ ch ∈ b.subs, (lookupChan b ch).map chanState.closed = some false

instance (b : sseBroadcaster) : Decidable (bwf b) :=
  inferInstanceAs (Decidable (_ ∧ _))

/- Concrete fixtures used by the closed theorems and witnesses below. -/

/-- The empty snapshot. -/
def snapEmpty : snapshot := fun _ => none

/-- A digest stat whose source captured a real query sample. -/
def statWithSample : digestStat :=
  { Digest := "d1", DigestText := "SELECT * FROM t WHERE id = ?"
  , QuerySample := { valid := true, str := "SELECT * FROM t WHERE id = 42" }
  , CountStar := 1, SumRowsExam := 5900, SumRowsSent := 0, SumRowsAff := 0 }

/-- Snapshot holding only statWithSample. -/
def snapWithSample : snapshot := fun k => if k = "d1" then some statWithSample else none

/-- The default configuration: 1 MiB thresholds, 200 bytes per row. -/
def cfgDefault : Config :=
  { ReadThreshold := 1048576, WriteThreshold := 1048576, AvgRowRead := 200, AvgRowSent := 200 }

/-- A configuration with a zero read threshold (parseBytesFlag accepts 0). -/
def cfgZeroRead : Config :=
  { ReadThreshold := 0, WriteThreshold := 1, AvgRowRead := 200, AvgRowSent := 200 }

/-- A stat with execution count 6 and no row activity. -/
def statCount6 : digestStat :=
  { Digest := "d2", DigestText := "COMMIT", QuerySample := NullString.zero
  , CountStar := 6, SumRowsExam := 0, SumRowsSent := 0, SumRowsAff := 0 }

/-- The same digest one execution later. -/
def statCount7 : digestStat :=
  { Digest := "d2", DigestText := "COMMIT", QuerySample := NullString.zero
  , CountStar := 7, SumRowsExam := 0, SumRowsSent := 0, SumRowsAff := 0 }

/-- Snapshot holding only statCount6. -/
def snapCount6 : snapshot := fun k => if k = "d2" then some statCount6 else none

/-- Snapshot holding only statCount7. -/
def snapCount7 : snapshot := fun k => if k = "d2" then some statCount7 else none

/-- A digest row whose counters are all zero. -/
def statAllZero : digestStat :=
  { Digest := "dz", DigestText := "SELECT 1", QuerySample := NullString.zero
  , CountStar := 0, SumRowsExam := 0, SumRowsSent := 0, SumRowsAff := 0 }

/-- Snapshot holding only statAllZero. -/
def snapAllZero : snapshot := fun k => if k = "dz" then some statAllZero else none

/-- Old stat with a counter that will appear to decrease. -/
def statBefore : digestStat :=
  { Digest := "d4", DigestText := "UPDATE t SET a = ?", QuerySample := NullString.zero
  , CountStar := 10, SumRowsExam := 100, SumRowsSent := 4, SumRowsAff := 9 }

/-- New stat: count decreased (counter reset), rows examined grew. -/
def statAfter : digestStat :=
  { Digest := "d4", DigestText := "UPDATE t SET a = ?", QuerySample := NullString.zero
  , CountStar := 4, SumRowsExam := 150, SumRowsSent := 4, SumRowsAff := 2 }

/-- Snapshot holding only statBefore. -/
def snapBefore : snapshot := fun k => if k = "d4" then some statBefore else none

/-- Snapshot holding only statAfter. -/
def snapAfter : snapshot := fun k => if k = "d4" then some statAfter else none

/-- The ring of capacity 3 after appending A, B, C, D in order. -/
def ringABCD : logRing :=
  ((((newLogRing 3).Append "A").Append "B").Append "C").Append "D"

/-- A broadcaster with subscriber 0 holding a full queue and subscriber 1
holding an empty queue. -/
def bcFixture : sseBroadcaster :=
  { nextId := 2
  , chans := [ (0, { queue := List.replicate 256 "x", closed := false })
             , (1, { queue := [], closed := false }) ]
  , subs := [0, 1] }

/-- A stat differing from statAfter only in SumRowsAff. -/
def statAfterAff : digestStat :=
  { Digest := "d4", DigestText := "UPDATE t SET a = ?", QuerySample := NullString.zero
  , CountStar := 4, SumRowsExam := 150, SumRowsSent := 4, SumRowsAff := 77 }

/-- Snapshot holding only statAfterAff. -/
def snapAfterAff : snapshot := fun k => if k = "d4" then some statAfterAff else none

/-- Erase the rows-affected counter of every row of a snapshot.  Two
snapshots differ only in their SumRowsAff values exactly when their images
under scrubAff agree. -/
def scrubAff (s : snapshot) : snapshot :=
  fun k => (s k).map (fun d => { d with SumRowsAff := 0 })

/-- A delta entry with a clamped count: between statBefore and statAfter
the count decreased from 10 to 4 (clamp to 0) while rows examined grew by
50. -/
def dClamped : digestStat :=
  { Digest := "d4", DigestText := "UPDATE t SET a = ?", QuerySample := NullString.zero
  , CountStar := 0, SumRowsExam := 50, SumRowsSent := 0, SumRowsAff := 0 }

/-- The delta entry produced for snapWithSample against the empty
snapshot: deltaSnap keeps the counters but leaves QuerySample at its zero
value. -/
def statSampleDelta : digestStat :=
  { Digest := "d1", DigestText := "SELECT * FROM t WHERE id = ?"
  , QuerySample := NullString.zero
  , CountStar := 1, SumRowsExam := 5900, SumRowsSent := 0, SumRowsAff := 0 }

end Mon

namespace Mon

/-- C1: REFUTED BY THE CODE (code bug).  The claim says the display text
reaching Alert is the captured sample text when the source has one.  But
deltaSnap (unnamed/part_001 lines 61-77) rebuilds the digestStat without
copying QuerySample, so the delta entry always carries the zero value
NullString and the sample-preference branch of monitor.Run (monitor.go
lines 89-91, commented: prefer real query sample when available) is dead:
the Alert text is always the normalized DigestText.  Here the source
snapshot has a valid non-empty sample, the delta qualifies for an alert,
and the issued offender carries the digest text, not the sample. -/
theorem alert_text_ignores_sample_bug :
    snapWithSample "d1" = some statWithSample ∧
    statWithSample.QuerySample.valid = true ∧
    statWithSample.QuerySample.str ≠ "" ∧
    tickAlerts cfgDefault snapEmpty snapWithSample "d1" =
      some { Digest := "d1", Text := "SELECT * FROM t WHERE id = ?"
           , BytesRead := 1180000, BytesWrite := 0
           , RowsExamined := 5900, RowsSent := 0, Count := 1 } ∧
    "SELECT * FROM t WHERE id = ?" ≠ statWithSample.QuerySample.str := by
  refine ⟨rfl, rfl, by decide, by decide, by decide⟩

/-- C2 counterexample: the alert decision is not a pure iff on the two
threshold comparisons.  monitor.Run line 85 skips any delta whose two byte
estimates are both zero before the threshold test on line 102.  With a
zero read threshold (parseBytesFlag accepts the string 0) and a delta
carrying only a count change, the claimed condition
estimatedBytesRead >= readThreshold holds (0 >= 0) yet no alert is
issued. -/
theorem alert_iff_thresholds_counterexample :
    deltaSnap snapCount6 snapCount7 "d2" =
      some { Digest := "d2", DigestText := "COMMIT", QuerySample := NullString.zero
           , CountStar := 1, SumRowsExam := 0, SumRowsSent := 0, SumRowsAff := 0 } ∧
    cfgZeroRead.ReadThreshold ≤ u64mul 0 cfgZeroRead.AvgRowRead ∧
    tickAlerts cfgZeroRead snapCount6 snapCount7 "d2" = none := by
  refine ⟨by decide, by decide, by decide⟩

/-- C2 amended: for every delta entry of an interval, an Alert is issued
for it if and only if at least one of the two byte estimates is non-zero
and (estimatedBytesRead >= readThreshold or estimatedBytesWritten >=
writeThreshold); when it qualifies the Alert carries the fully populated
offender of that delta (each field listed), issued once for that key; and
the concrete OR case of the claim holds: with avgBytesPerRowExamined 200,
rows examined 5900 (1180000 bytes) and readThreshold 1048576 the alert
fires although the write estimate is 0, below the write threshold. -/
theorem alert_iff_thresholds_amended (cfg : Config) (prev curr : snapshot)
    (k : snapKey) (d : digestStat) (h : deltaSnap prev curr k = some d) :
    (tickAlerts cfg prev curr k = some (mkOffender cfg d) ↔
      (¬ (u64mul d.SumRowsExam cfg.AvgRowRead = 0 ∧ u64mul d.SumRowsSent cfg.AvgRowSent = 0) ∧
       (cfg.ReadThreshold ≤ u64mul d.SumRowsExam cfg.AvgRowRead ∨
        cfg.WriteThreshold ≤ u64mul d.SumRowsSent cfg.AvgRowSent))) ∧
    (mkOffender cfg d).Digest = d.Digest ∧
    (mkOffender cfg d).BytesRead = u64mul d.SumRowsExam cfg.AvgRowRead ∧
    (mkOffender cfg d).BytesWrite = u64mul d.SumRowsSent cfg.AvgRowSent ∧
    (mkOffender cfg d).RowsExamined = d.SumRowsExam ∧
    (mkOffender cfg d).RowsSent = d.SumRowsSent ∧
    (mkOffender cfg d).Count = d.CountStar ∧
    tickAlerts cfgDefault snapEmpty snapWithSample "d1" =
      some (mkOffender cfgDefault statSampleDelta) ∧
    1048576 ≤ u64mul statSampleDelta.SumRowsExam cfgDefault.AvgRowRead ∧
    u64mul statSampleDelta.SumRowsSent cfgDefault.AvgRowSent = 0 := by
  refine ⟨?_, rfl, rfl, rfl, rfl, rfl, rfl, by decide, by decide, by decide⟩
  unfold tickAlerts
  rw [h]
  show alertFor cfg d = some (mkOffender cfg d) ↔ _
  by_cases h1 : u64mul d.SumRowsExam cfg.AvgRowRead = 0 ∧ u64mul d.SumRowsSent cfg.AvgRowSent = 0
  · simp [alertFor, h1]
  · by_cases h2 : cfg.ReadThreshold ≤ u64mul d.SumRowsExam cfg.AvgRowRead ∨
        cfg.WriteThreshold ≤ u64mul d.SumRowsSent cfg.AvgRowSent
    · simp [alertFor, h1, h2]
    · simp [alertFor, h1, h2]

/-- Witness for the amended C2 theorem at a concrete input: the delta of
snapWithSample against the empty snapshot qualifies, and the iff holds
there. -/
theorem alert_iff_thresholds_amended_witness :
    tickAlerts cfgDefault snapEmpty snapWithSample "d1" =
      some (mkOffender cfgDefault statSampleDelta) ↔
      (¬ (u64mul statSampleDelta.SumRowsExam cfgDefault.AvgRowRead = 0 ∧
          u64mul statSampleDelta.SumRowsSent cfgDefault.AvgRowSent = 0) ∧
       (cfgDefault.ReadThreshold ≤ u64mul statSampleDelta.SumRowsExam cfgDefault.AvgRowRead ∨
        cfgDefault.WriteThreshold ≤ u64mul statSampleDelta.SumRowsSent cfgDefault.AvgRowSent)) :=
  (alert_iff_thresholds_amended cfgDefault snapEmpty snapWithSample "d1" statSampleDelta
    (by decide)).1

/-- C3 counterexample: the delta mapping is not restricted to keys with
non-zero activity.  A key absent from the old snapshot is emitted with its
entire current counters (unnamed/part_001 lines 68-77) even when those
counters are all zero, so the result can contain an entry whose three
delta counters are all zero. -/
theorem delta_nonzero_activity_counterexample :
    deltaSnap snapEmpty snapAllZero "dz" = some statAllZero ∧
    statAllZero.CountStar = 0 ∧ statAllZero.SumRowsExam = 0 ∧
    statAllZero.SumRowsSent = 0 := by
  refine ⟨by decide, rfl, rfl, rfl⟩

/-- C3 amended: for a key present in both snapshots, any emitted delta
entry has at least one non-zero counter, and the key is absent when its
three counters are unchanged; a key absent from the old snapshot is
always emitted with its entire current counters, which may all be zero. -/
theorem delta_nonzero_activity_amended :
    (∀ old new : snapshot, ∀ k oldv d, old k = some oldv →
       deltaSnap old new k = some d →
         ¬ (d.CountStar = 0 ∧ d.SumRowsExam = 0 ∧ d.SumRowsSent = 0)) ∧
    (∀ old new : snapshot, ∀ k oldv newv, old k = some oldv → new k = some newv →
       oldv.CountStar = newv.CountStar → oldv.SumRowsExam = newv.SumRowsExam →
       oldv.SumRowsSent = newv.SumRowsSent → deltaSnap old new k = none) ∧
    (∀ old new : snapshot, ∀ k newv, old k = none → new k = some newv →
       deltaSnap old new k =
         some { Digest := newv.Digest, DigestText := newv.DigestText
              , QuerySample := NullString.zero
              , CountStar := newv.CountStar, SumRowsExam := newv.SumRowsExam
              , SumRowsSent := newv.SumRowsSent, SumRowsAff := 0 }) := by
  refine ⟨?_, ?_, ?_⟩
  · intro old new k oldv d ho hd
    cases hn : new k with
    | none => simp [deltaSnap, hn] at hd
    | some newv =>
      revert hd
      simp only [deltaSnap, hn, ho]
      generalize (if oldv.CountStar ≤ newv.CountStar then newv.CountStar - oldv.CountStar
        else 0) = a
      generalize (if oldv.SumRowsExam ≤ newv.SumRowsExam then newv.SumRowsExam - oldv.SumRowsExam
        else 0) = b
      generalize (if oldv.SumRowsSent ≤ newv.SumRowsSent then newv.SumRowsSent - oldv.SumRowsSent
        else 0) = c
      intro hd
      split at hd
      · cases hd
      · rename_i hcond
        cases hd
        simpa using hcond
  · intro old new k oldv newv ho hn h1 h2 h3
    simp [deltaSnap, hn, ho, h1, h2, h3]
  · intro old new k newv ho hn
    simp [deltaSnap, hn, ho]

/-- Witness for the amended C3 theorem: the delta between snapBefore and
snapAfter at key d4 has a non-zero counter. -/
theorem delta_nonzero_activity_amended_witness :
    ¬ (dClamped.CountStar = 0 ∧ dClamped.SumRowsExam = 0 ∧ dClamped.SumRowsSent = 0) :=
  delta_nonzero_activity_amended.1 snapBefore snapAfter "d4" statBefore dClamped rfl (by decide)

/-- C4: each counter of a delta entry for a key present in both snapshots
is the clamped difference of the cumulative counters: current minus
previous when the current value is at least the previous one, and zero
otherwise; every counter of every delta entry is non-negative (Go uint64
is modelled as Nat and every subtraction in deltaSnap is guarded, so no
wraparound can occur); a key absent from the old snapshot and present in
the new one is emitted with its entire current counters. -/
theorem delta_clamped_subtraction :
    (∀ old new : snapshot, ∀ k oldv newv d, old k = some oldv → new k = some newv →
       deltaSnap old new k = some d →
         d.CountStar =
           (if oldv.CountStar ≤ newv.CountStar then newv.CountStar - oldv.CountStar else 0) ∧
         d.SumRowsExam =
           (if oldv.SumRowsExam ≤ newv.SumRowsExam then newv.SumRowsExam - oldv.SumRowsExam
            else 0) ∧
         d.SumRowsSent =
           (if oldv.SumRowsSent ≤ newv.SumRowsSent then newv.SumRowsSent - oldv.SumRowsSent
            else 0)) ∧
    (∀ old new : snapshot, ∀ k d, deltaSnap old new k = some d →
       0 ≤ d.CountStar ∧ 0 ≤ d.SumRowsExam ∧ 0 ≤ d.SumRowsSent) ∧
    (∀ old new : snapshot, ∀ k newv, old k = none → new k = some newv →
       deltaSnap old new k =
         some { Digest := newv.Digest, DigestText := newv.DigestText
              , QuerySample := NullString.zero
              , CountStar := newv.CountStar, SumRowsExam := newv.SumRowsExam
              , SumRowsSent := newv.SumRowsSent, SumRowsAff := 0 }) := by
  refine ⟨?_, ?_, ?_⟩
  · intro old new k oldv newv d ho hn hd
    revert hd
    simp only [deltaSnap, hn, ho]
    generalize (if oldv.CountStar ≤ newv.CountStar then newv.CountStar - oldv.CountStar
      else 0) = a
    generalize (if oldv.SumRowsExam ≤ newv.SumRowsExam then newv.SumRowsExam - oldv.SumRowsExam
      else 0) = b
    generalize (if oldv.SumRowsSent ≤ newv.SumRowsSent then newv.SumRowsSent - oldv.SumRowsSent
      else 0) = c
    intro hd
    split at hd
    · cases hd
    · cases hd
      exact ⟨rfl, rfl, rfl⟩
  · intro old new k d _
    exact ⟨Nat.zero_le _, Nat.zero_le _, Nat.zero_le _⟩
  · intro old new k newv ho hn
    simp [deltaSnap, hn, ho]

/-- Witness for C4 at a concrete input exercising the clamp: the count
decreased from 10 to 4 and is clamped to zero, rows examined grew from 100
to 150 and the delta is 50. -/
theorem delta_clamped_subtraction_witness :
    dClamped.CountStar =
      (if statBefore.CountStar ≤ statAfter.CountStar
       then statAfter.CountStar - statBefore.CountStar else 0) ∧
    dClamped.SumRowsExam =
      (if statBefore.SumRowsExam ≤ statAfter.SumRowsExam
       then statAfter.SumRowsExam - statBefore.SumRowsExam else 0) ∧
    dClamped.SumRowsSent =
      (if statBefore.SumRowsSent ≤ statAfter.SumRowsSent
       then statAfter.SumRowsSent - statBefore.SumRowsSent else 0) :=
  delta_clamped_subtraction.1 snapBefore snapAfter "d4" statBefore statAfter dClamped
    rfl rfl (by decide)

/-- C5: on every ring state satisfying the invariant (the retained lines
number next - base and next - base is at most the capacity; the program
only builds rings of positive capacity, stream.go line 66), Append
preserves the invariant and never fails: it always advances next by
exactly one, and when the buffer holds cap lines it first evicts the
oldest line, advancing base by one, before appending; below capacity the
base is untouched and the line is appended at the end.  GetFrom and Head
are read-only and leave the state unchanged by construction. -/
theorem append_preserves_invariant (r : logRing) (s : String) (h : r.Inv) :
    (r.Append s).Inv ∧
    (r.Append s).next = r.next + 1 ∧
    (r.Append s).cap = r.cap ∧
    (r.data.length = r.cap →
       (r.Append s).base = r.base + 1 ∧ (r.Append s).data = r.data.drop 1 ++ [s]) ∧
    (r.data.length ≠ r.cap →
       (r.Append s).base = r.base ∧ (r.Append s).data = r.data ++ [s]) := by
  obtain ⟨h1, h2, h3, h4⟩ := h
  by_cases hc : r.data.length = r.cap
  · refine ⟨⟨?_, ?_, ?_, ?_⟩, ?_, ?_, ?_, ?_⟩ <;>
      simp [logRing.Append, logRing.Inv, hc] <;> omega
  · refine ⟨⟨?_, ?_, ?_, ?_⟩, ?_, ?_, ?_, ?_⟩ <;>
      simp [logRing.Append, logRing.Inv, hc] <;> omega

/-- Witness for C5 at a full ring of capacity 2: appending evicts the
oldest line and preserves the invariant. -/
theorem append_preserves_invariant_witness :
    (({ cap := 2, data := ["A", "B"], base := 0, next := 2 } : logRing).Append "C").Inv ∧
    (({ cap := 2, data := ["A", "B"], base := 0, next := 2 } : logRing).Append "C").next = 3 :=
  ⟨(append_preserves_invariant { cap := 2, data := ["A", "B"], base := 0, next := 2 } "C"
      (by decide)).1,
   (append_preserves_invariant { cap := 2, data := ["A", "B"], base := 0, next := 2 } "C"
      (by decide)).2.1⟩

/-- C6: under the ring invariant, GetFrom seq returns exactly the retained
lines from position (max seq base) - base on (every retained line whose
sequence number is at least seq, in order, where the line at position i of
data has sequence base + i), paired with next as the new cursor; a seq
below base is thereby silently clamped to base and no error is signalled
(the function has no error result at all).  Moreover the concrete claim
scenario holds: with capacity 3 and appends A, B, C, D the state has
base 1, retained lines B, C, D and next 4; GetFrom 0 clamps to 1 and
returns B, C, D with cursor 4; GetFrom 2 returns C, D with cursor 4. -/
theorem getFrom_returns_tail (r : logRing) (seq : Nat) (h : r.Inv) :
    r.GetFrom seq = (r.data.drop (max seq r.base - r.base), r.next) ∧
    ringABCD.base = 1 ∧ ringABCD.data = ["B", "C", "D"] ∧ ringABCD.next = 4 ∧
    ringABCD.GetFrom 0 = (["B", "C", "D"], 4) ∧
    ringABCD.GetFrom 2 = (["C", "D"], 4) := by
  obtain ⟨h1, h2, h3, h4⟩ := h
  refine ⟨?_, by decide, by decide, by decide, by decide, by decide⟩
  unfold logRing.GetFrom
  by_cases hlt : seq < r.base
  · have hmax : max seq r.base = r.base := Nat.max_eq_right (Nat.le_of_lt hlt)
    simp [hlt, hmax]
    intro hnb
    omega
  · have hmax : max seq r.base = seq := Nat.max_eq_left (Nat.le_of_not_lt hlt)
    by_cases hgt : r.next < seq
    · have : r.data.length ≤ seq - r.base := by omega
      simp [hlt, hgt, hmax, List.drop_eq_nil_of_le this]
    · have : ¬ r.data.length < seq - r.base := by omega
      simp [hlt, hgt, hmax, this]

/-- Witness for C6: GetFrom applied to the A, B, C, D ring at cursor 0
returns the drop characterization. -/
theorem getFrom_returns_tail_witness :
    ringABCD.GetFrom 0 = (ringABCD.data.drop (max 0 ringABCD.base - ringABCD.base), ringABCD.next) :=
  (getFrom_returns_tail ringABCD 0 (by decide)).1

/-- Helper: find? by key commutes with mapping a key-preserving update
over an association list. -/
theorem find?_map_fst (g : Nat × chanState → Nat × chanState)
    (hg : ∀ p, (g p).1 = p.1) (l : List (Nat × chanState)) (ch : Nat) :
    (l.map g).find? (fun p => p.1 = ch) = (l.find? (fun p => p.1 = ch)).map g := by
  induction l with
  | nil => rfl
  | cons q l ih =>
    by_cases hq : q.1 = ch
    · simp [List.find?_cons, hg, hq]
    · simp [List.find?_cons, hg, hq, ih]

/-- Helper: looking up a channel after a Broadcast yields the attempted
enqueue for registered subscribers and the untouched state otherwise. -/
theorem lookupChan_Broadcast (b : sseBroadcaster) (msg : String) (ch : Nat) :
    lookupChan (Broadcast b msg) ch =
      (lookupChan b ch).map (fun st => if ch ∈ b.subs then enqueueAttempt st msg else st) := by
  unfold lookupChan Broadcast
  simp only []
  rw [find?_map_fst (fun p => if p.1 ∈ b.subs then (p.1, enqueueAttempt p.2 msg) else p)
    (by intro p; by_cases hs : p.1 ∈ b.subs <;> simp [hs])]
  cases hf : b.chans.find? (fun p => p.1 = ch) with
  | none => rfl
  | some p =>
    have hp : p.1 = ch := by
      have := List.find?_some hf
      simpa using this
    by_cases hs : ch ∈ b.subs
    · simp [hp, hs]
    · simp [hp, hs]

/-- C7: Broadcast attempts a non-blocking enqueue to every currently
registered subscriber queue.  A registered subscriber whose queue has room
receives the line at the end of its queue; a registered subscriber whose
queue is full keeps its queue unchanged (the line is dropped for that
subscriber only); a channel that is not registered is untouched; the
registry itself is unchanged, and Broadcast is a total function with no
error result, matching the Go signature that returns nothing. -/
theorem broadcast_isolation (b : sseBroadcaster) (msg : String) (ch : Nat) (st : chanState)
    (h : lookupChan b ch = some st) :
    (ch ∈ b.subs → st.queue.length < subCap →
       lookupChan (Broadcast b msg) ch = some { st with queue := st.queue ++ [msg] }) ∧
    (ch ∈ b.subs → ¬ st.queue.length < subCap →
       lookupChan (Broadcast b msg) ch = some st) ∧
    (ch ∉ b.subs → lookupChan (Broadcast b msg) ch = some st) ∧
    (Broadcast b msg).subs = b.subs := by
  refine ⟨?_, ?_, ?_, rfl⟩
  · intro hs hlen
    rw [lookupChan_Broadcast, h]
    simp [hs, enqueueAttempt, hlen]
  · intro hs hlen
    rw [lookupChan_Broadcast, h]
    simp [hs, enqueueAttempt, hlen]
  · intro hs
    rw [lookupChan_Broadcast, h]
    simp [hs]

set_option maxRecDepth 4000 in
/-- Witness for C7 on the fixture: subscriber 0 has a full queue of 256
lines and drops the broadcast line, subscriber 1 has room and receives
it. -/
theorem broadcast_isolation_witness :
    lookupChan (Broadcast bcFixture "L") 1 = some { queue := ["L"], closed := false } ∧
    lookupChan (Broadcast bcFixture "L") 0 =
      some { queue := List.replicate 256 "x", closed := false } :=
  ⟨(broadcast_isolation bcFixture "L" 1 { queue := [], closed := false } rfl).1
      (by decide) (by decide),
   (broadcast_isolation bcFixture "L" 0 { queue := List.replicate 256 "x", closed := false }
      rfl).2.1 (by decide) (by decide)⟩

/-- Helper: once a channel is no longer registered, unsubscribe is a
no-op returning the same state (the else branch of the membership test in
the closure of stream.go lines 104-111). -/
theorem unsubscribe_not_mem (b : sseBroadcaster) (ch : Nat) (h : ch ∉ b.subs) :
    unsubscribe b ch = some b := by
  unfold unsubscribe
  rw [if_neg h]

/-- C8: from any well-formed registry state with ch registered, the first
unsubscribe call succeeds without a panic: it removes ch from the registry
(count decreases by exactly one) and closes its channel; and every further
call, any number of times, is a successful no-op on that state, so no
double close of the channel can occur and the count decreases by exactly
one no matter how many times the closure is invoked. -/
theorem unsubscribe_idempotent (b : sseBroadcaster) (ch : Nat) (h : bwf b)
    (hm : ch ∈ b.subs) :
    ∃ b1, unsubscribe b ch = some b1 ∧
      b1.subs = b.subs.erase ch ∧
      b1.subs.length + 1 = b.subs.length ∧
      ch ∉ b1.subs ∧
      (∃ st, lookupChan b ch = some st ∧ lookupChan b1 ch = some { st with closed := true }) ∧
      (∀ n, unsubN n b1 ch = some b1) := by
  obtain ⟨hnd, hcl⟩ := h
  have hc := hcl ch hm
  unfold lookupChan at hc
  cases hf : b.chans.find? (fun p => p.1 = ch) with
  | none => rw [hf] at hc; cases hc
  | some p =>
    rw [hf] at hc
    simp at hc
    have hp : p.1 = ch := by
      have := List.find?_some hf
      simpa using this
    have hstep : unsubscribe b ch =
        some { b with
                subs := b.subs.erase ch,
                chans := b.chans.map
                  (fun q => if q.1 = ch then (q.1, { q.2 with closed := true }) else q) } := by
      unfold unsubscribe closeChan
      rw [if_pos hm]
      simp only []
      rw [hf]
      simp [hc]
    refine ⟨_, hstep, rfl, ?_, ?_, ?_, ?_⟩
    · have hlen := List.length_erase_of_mem hm
      have hpos : 0 < b.subs.length := List.length_pos.mpr (List.ne_nil_of_mem hm)
      simp only []
      omega
    · intro hmem
      exact (List.Nodup.mem_erase_iff hnd).mp hmem |>.1 rfl
    · refine ⟨p.2, ?_, ?_⟩
      · unfold lookupChan
        rw [hf]
        rfl
      · unfold lookupChan
        simp only []
        rw [find?_map_fst (fun q => if q.1 = ch then (q.1, { q.2 with closed := true }) else q)
          (by intro q; by_cases hq : q.1 = ch <;> simp [hq]), hf]
        simp [hp]
    · have hnot : ch ∉ b.subs.erase ch := fun hmem =>
        (List.Nodup.mem_erase_iff hnd).mp hmem |>.1 rfl
      intro n
      induction n with
      | zero => rfl
      | succ n ih =>
        unfold unsubN
        rw [unsubscribe_not_mem _ _ hnot]
        exact ih

/-- Witness for C8 on the fixture: unsubscribing channel 0 succeeds,
shrinks the registry from two subscribers to one, closes the channel, and
repeating the call any number of times is a no-op. -/
theorem unsubscribe_idempotent_witness :
    ∃ b1, unsubscribe bcFixture 0 = some b1 ∧
      b1.subs = bcFixture.subs.erase 0 ∧
      b1.subs.length + 1 = bcFixture.subs.length ∧
      0 ∉ b1.subs ∧
      (∃ st, lookupChan bcFixture 0 = some st ∧
        lookupChan b1 0 = some { st with closed := true }) ∧
      (∀ n, unsubN n b1 0 = some b1) :=
  unsubscribe_idempotent bcFixture 0 (by decide) (by decide)

/-- C9: a failed periodic snapshot fetch is a no-op tick.  The loop run
from previous snapshot prev on a trace starting with a failed fetch keeps
prev as the reference for the remaining trace (the previous snapshot is
left unchanged), records no alert for the failed tick, and continues with
the rest of the trace; a successful fetch, and only a successful fetch,
replaces the previous snapshot with the freshly fetched one.  This mirrors
monitor.go lines 74-79, where the error path logs, unlocks and continues
before any delta computation and before the assignment on line 107. -/
theorem fail_tick_no_effect (cfg : Config) (prev curr : snapshot)
    (rest : List FetchResult) :
    runLoop cfg prev (FetchResult.fail :: rest) =
      ((runLoop cfg prev rest).1, (fun _ => none) :: (runLoop cfg prev rest).2) ∧
    runTick cfg prev FetchResult.fail = (prev, fun _ => none) ∧
    (runTick cfg prev (FetchResult.ok curr)).1 = curr := by
  exact ⟨rfl, rfl, rfl⟩

/-- Helper: deltaSnap reads each snapshot only at the queried key. -/
theorem deltaSnap_pointwise (old1 new1 old2 new2 : snapshot) (k : snapKey)
    (ho : old1 k = old2 k) (hn : new1 k = new2 k) :
    deltaSnap old1 new1 k = deltaSnap old2 new2 k := by
  unfold deltaSnap
  rw [ho, hn]

/-- Helper: deltaSnap never reads the rows-affected counter, so erasing it
from both inputs leaves the result unchanged at every key. -/
theorem deltaSnap_scrubAff (old new : snapshot) (k : snapKey) :
    deltaSnap old new k = deltaSnap (scrubAff old) (scrubAff new) k := by
  cases hn : new k with
  | none => simp [deltaSnap, scrubAff, hn]
  | some newv =>
    cases ho : old k with
    | none => simp [deltaSnap, scrubAff, hn, ho]
    | some oldv => simp [deltaSnap, scrubAff, hn, ho]

/-- C10: the cumulative rows-affected counter never influences any
output.  Every delta entry carries a zero rows-affected field (the Go
composite literals in deltaSnap leave it at its zero value), and for any
two snapshot pairs that agree after erasing rows-affected everywhere
(that is, differ only in their SumRowsAff values) the differ output and
the alert decision of the tick are identical at every key, for every
configuration. -/
theorem rowsAff_noninterference :
    (∀ old new : snapshot, ∀ k d, deltaSnap old new k = some d → d.SumRowsAff = 0) ∧
    (∀ cfg : Config, ∀ old1 new1 old2 new2 : snapshot, ∀ k : snapKey,
       scrubAff old1 k = scrubAff old2 k → scrubAff new1 k = scrubAff new2 k →
         deltaSnap old1 new1 k = deltaSnap old2 new2 k ∧
         tickAlerts cfg old1 new1 k = tickAlerts cfg old2 new2 k) := by
  constructor
  · intro old new k d hd
    cases hn : new k with
    | none => simp [deltaSnap, hn] at hd
    | some newv =>
      cases ho : old k with
      | none =>
        simp only [deltaSnap, hn, ho] at hd
        cases hd
        rfl
      | some oldv =>
        revert hd
        simp only [deltaSnap, hn, ho]
        generalize (if oldv.CountStar ≤ newv.CountStar then newv.CountStar - oldv.CountStar
          else 0) = a
        generalize (if oldv.SumRowsExam ≤ newv.SumRowsExam
          then newv.SumRowsExam - oldv.SumRowsExam else 0) = b
        generalize (if oldv.SumRowsSent ≤ newv.SumRowsSent
          then newv.SumRowsSent - oldv.SumRowsSent else 0) = c
        intro hd
        split at hd
        · cases hd
        · cases hd
          rfl
  · intro cfg old1 new1 old2 new2 k ho hn
    have hdelta : deltaSnap old1 new1 k = deltaSnap old2 new2 k := by
      rw [deltaSnap_scrubAff old1 new1 k, deltaSnap_scrubAff old2 new2 k]
      exact deltaSnap_pointwise _ _ _ _ k ho hn
    exact ⟨hdelta, by unfold tickAlerts; rw [hdelta]⟩

/-- Witness for C10 at concrete inputs: snapAfter and snapAfterAff differ
only in SumRowsAff (2 against 77), and both the delta and the alert
decision at key d4 coincide. -/
theorem rowsAff_noninterference_witness :
    deltaSnap snapBefore snapAfter "d4" = deltaSnap snapBefore snapAfterAff "d4" ∧
    tickAlerts cfgDefault snapBefore snapAfter "d4" =
      tickAlerts cfgDefault snapBefore snapAfterAff "d4" :=
  rowsAff_noninterference.2 cfgDefault snapBefore snapAfter snapBefore snapAfterAff "d4"
    (by decide) (by decide)
